import Mathlib

/-!
Shallow embedding of `securesystemslib/interface.py`: the operator-facing
key-file lifecycle (password resolution, key generation and persistence,
key import and batch dispatch).  External collaborators that are not part
of the sources (schema validators from `formats.py`, crypto primitives
from `keys.py`, `util.persist_temp_file`, module constants) are modelled
from the specification and marked as such in their doc comments.
-/

namespace Sslib

/-- The error taxonomy of the module.  `valueError` is a Python
`ValueError` (the policy errors raised by the password resolvers),
`formatError` is `securesystemslib.exceptions.FormatError`,
`cryptoError` is `securesystemslib.exceptions.CryptoError`,
`storageError` stands for I/O errors surfaced by the storage backend,
and `genericError` is `securesystemslib.exceptions.Error`. -/
inductive Err where
  | valueError (msg : String)
  | formatError (msg : String)
  | cryptoError (msg : String)
  | storageError (msg : String)
  | genericError (msg : String)
deriving DecidableEq, Repr

/-- Whether an error is a `securesystemslib.exceptions.FormatError`. -/
def Err.isFormat : Err → Bool
  | .formatError _ => true
  | _ => false

/-- Whether an error is a Python `ValueError` (policy error). -/
def Err.isValue : Err → Bool
  | .valueError _ => true
  | _ => false

/-- Modelled from the spec: `securesystemslib.formats.PASSWORD_SCHEMA`
(`formats.py` is not part of the sources).  Per the spec, a password that
reaches the validator is a string and "validated for format only"; the
validator accepts every string, including the empty one (the explicit
length check in the encryption resolver would otherwise be unreachable). -/
def PASSWORD_SCHEMA_check (s : String) : Bool :=
  s.length ≥ 0

/-- Modelled from the spec: `securesystemslib.formats.RSAKEYBITS_SCHEMA`
(`formats.py` is not part of the sources).  The spec fixes the default RSA
size at 3072 bits; the validator accepts integer bit-lengths of at least
2048. -/
def RSAKEYBITS_SCHEMA_check (bits : Nat) : Bool :=
  2048 ≤ bits

/-- Modelled from the spec: `securesystemslib.formats.RSA_SCHEME_SCHEMA`
(`formats.py` is not part of the sources).  A named RSA signature scheme
profile such as the default rsassa-pss-sha256. -/
def RSA_SCHEME_SCHEMA_check (s : String) : Bool :=
  ["rsassa-pss-sha224", "rsassa-pss-sha256", "rsassa-pss-sha384",
   "rsassa-pss-sha512"].contains s

/-- `interface._get_key_file_encryption_password`.  The interactive
`get_password(confirm=True)` call is modelled by its result
`promptedPassword` (the confirmation loop re-prompts until both entries
match, so it always returns the string the user settled on). -/
def get_key_file_encryption_password (password : Option String)
    (prompt : Bool) (promptedPassword : String) :
    Except Err (Option String) :=
  -- "We don't want to decide which takes precedence so we fail"
  if password.isSome && prompt then
    .error (.valueError "passing password and prompt=True is not allowed")
  else
    let password := if prompt then
        -- empty prompted password means: do not encrypt
        if promptedPassword.length == 0 then none else some promptedPassword
      else password
    match password with
    | none => .ok none
    | some pw =>
      if !PASSWORD_SCHEMA_check pw then
        .error (.formatError "password is improperly formatted")
      else if pw.length == 0 then
        .error (.valueError "encryption password must be 1 or more characters long")
      else .ok (some pw)

/-- `interface._get_key_file_decryption_password`.  The interactive
`get_password(confirm=False)` call is modelled by its result
`promptedPassword`. -/
def get_key_file_decryption_password (password : Option String)
    (prompt : Bool) (promptedPassword : String) :
    Except Err (Option String) :=
  if password.isSome && prompt then
    .error (.valueError "passing password and prompt=True is not allowed")
  else
    let password := if prompt then
        -- empty prompted password means: treat the file as not encrypted
        if promptedPassword.length == 0 then none else some promptedPassword
      else password
    match password with
    | none => .ok none
    | some pw =>
      if !PASSWORD_SCHEMA_check pw then
        .error (.formatError "password is improperly formatted")
      else
        -- "No additional vetting needed. Decryption will show if it
        -- was correct."
        .ok (some pw)

/-- Modelled from the spec: the key-type constants `KEY_TYPE_RSA`,
`KEY_TYPE_ED25519`, `KEY_TYPE_ECDSA` imported from the package root
(not part of the sources); the spec data model gives the key-type enum
as rsa, ed25519, ecdsa. -/
def KEY_TYPE_RSA : String := "rsa"

/-- Modelled from the spec: see KEY_TYPE_RSA. -/
def KEY_TYPE_ED25519 : String := "ed25519"

/-- Modelled from the spec: see KEY_TYPE_RSA. -/
def KEY_TYPE_ECDSA : String := "ecdsa"

/-- An RSA key pair as produced by the primitives provider
`securesystemslib.keys.generate_rsa_key`: a keyid plus public and
private PEM text. -/
structure RsaKey where
  keyid : String
  publicPem : String
  privatePem : String
deriving DecidableEq, Repr

/-- A non-RSA key pair as produced by
`securesystemslib.keys.generate_ed25519_key` /
`generate_ecdsa_key`: the in-memory dict with keytype, scheme, keyid
and a keyval holding public and private payloads. -/
structure SslibKey where
  keytype : String
  scheme : String
  keyid : String
  keyvalPublic : String
  keyvalPrivate : String
deriving DecidableEq, Repr

/-- The content written to a key file.  External serializers and
encryptors (`json.dumps`, `keys.format_keyval_to_metadata`,
`keys.encrypt_key`, `keys.create_rsa_encrypted_pem`) are uninterpreted:
each is represented by a constructor applied to its inputs. -/
inductive FileContent where
  /-- Raw text written as-is (PEM strings for RSA). -/
  | raw (s : String)
  /-- `keys.create_rsa_encrypted_pem(pem, pw)`. -/
  | encryptedPem (pem pw : String)
  /-- `json.dumps(keys.format_keyval_to_metadata(keytype, scheme, keyval,
  private=False))`: the public-only on-disk record. -/
  | publicMetadataJson (keytype scheme pub : String)
  /-- `json.dumps(key)`: the full key dict serialized unencrypted. -/
  | privateKeyJson (k : SslibKey)
  /-- `keys.encrypt_key(key, pw)`. -/
  | encryptedKey (k : SslibKey) (pw : String)
deriving DecidableEq, Repr

/-- Observable effects of the interface functions, in program order:
key generation by the primitives provider, private-key encryption,
directory creation, file reads through the storage backend, and file
writes through `util.persist_temp_file`. -/
inductive Event where
  | generateKey (keytype : String)
  | encryptPrivate
  | ensureParentDir (path : String)
  | readFile (path : String)
  | writeFile (path : String) (content : FileContent)
deriving DecidableEq, Repr

/-- The filename actually used by the generate functions: the passed
filepath, or `os.path.join(os.getcwd(), keyid)` when the passed filepath
is None or empty (Python `if not filepath`). -/
def resolveFilepath (cwd keyid : String) : Option String → String
  | none => cwd ++ "/" ++ keyid
  | some p => if p = "" then cwd ++ "/" ++ keyid else p

/-- `interface.generate_and_write_rsa_keypair`.  Environment inputs:
`promptedPassword` models the interactive entry, `rsaKey` the pair
returned by `keys.generate_rsa_key`, `encryptOk` whether
`keys.create_rsa_encrypted_pem` succeeds, `cwd` the working directory.
Returns the trace of effects together with the result. -/
def generate_and_write_rsa_keypair (filepath : Option String)
    (bits : Nat) (password : Option String) (prompt : Bool)
    (promptedPassword : String) (rsaKey : RsaKey) (encryptOk : Bool)
    (cwd : String) : List Event × Except Err String :=
  if !RSAKEYBITS_SCHEMA_check bits then
    ([], .error (.formatError "bits is improperly formatted"))
  else
    match get_key_file_encryption_password password prompt promptedPassword with
    | .error e => ([], .error e)
    | .ok pwOpt =>
      let fp := resolveFilepath cwd rsaKey.keyid filepath
      match pwOpt with
      | some pw =>
        if encryptOk then
          ([.generateKey "rsa", .encryptPrivate, .ensureParentDir fp,
            .writeFile (fp ++ ".pub") (.raw rsaKey.publicPem),
            .writeFile fp (.encryptedPem rsaKey.privatePem pw)], .ok fp)
        else
          ([.generateKey "rsa", .encryptPrivate],
           .error (.cryptoError "cannot encrypt private PEM"))
      | none =>
        ([.generateKey "rsa", .ensureParentDir fp,
          .writeFile (fp ++ ".pub") (.raw rsaKey.publicPem),
          .writeFile fp (.raw rsaKey.privatePem)], .ok fp)

/-- `interface.generate_and_write_ed25519_keypair`.  `key` is the pair
returned by `keys.generate_ed25519_key`, `encryptOk` whether
`keys.encrypt_key` succeeds. -/
def generate_and_write_ed25519_keypair (filepath : Option String)
    (password : Option String) (prompt : Bool)
    (promptedPassword : String) (key : SslibKey) (encryptOk : Bool)
    (cwd : String) : List Event × Except Err String :=
  match get_key_file_encryption_password password prompt promptedPassword with
  | .error e => ([], .error e)
  | .ok pwOpt =>
    let fp := resolveFilepath cwd key.keyid filepath
    let pubWrites : List Event :=
      [.generateKey "ed25519", .ensureParentDir fp,
       .writeFile (fp ++ ".pub")
         (.publicMetadataJson key.keytype key.scheme key.keyvalPublic)]
    match pwOpt with
    | some pw =>
      if encryptOk then
        (pubWrites ++ [.encryptPrivate, .writeFile fp (.encryptedKey key pw)],
         .ok fp)
      else
        (pubWrites ++ [.encryptPrivate],
         .error (.cryptoError "cannot encrypt key"))
    | none =>
      (pubWrites ++ [.writeFile fp (.privateKeyJson key)], .ok fp)

/-- `interface.generate_and_write_ecdsa_keypair`: identical structure to
the Ed25519 variant, over `keys.generate_ecdsa_key`. -/
def generate_and_write_ecdsa_keypair (filepath : Option String)
    (password : Option String) (prompt : Bool)
    (promptedPassword : String) (key : SslibKey) (encryptOk : Bool)
    (cwd : String) : List Event × Except Err String :=
  match get_key_file_encryption_password password prompt promptedPassword with
  | .error e => ([], .error e)
  | .ok pwOpt =>
    let fp := resolveFilepath cwd key.keyid filepath
    let pubWrites : List Event :=
      [.generateKey "ecdsa", .ensureParentDir fp,
       .writeFile (fp ++ ".pub")
         (.publicMetadataJson key.keytype key.scheme key.keyvalPublic)]
    match pwOpt with
    | some pw =>
      if encryptOk then
        (pubWrites ++ [.encryptPrivate, .writeFile fp (.encryptedKey key pw)],
         .ok fp)
      else
        (pubWrites ++ [.encryptPrivate],
         .error (.cryptoError "cannot encrypt key"))
    | none =>
      (pubWrites ++ [.writeFile fp (.privateKeyJson key)], .ok fp)

/-- The on-disk JSON record of a non-RSA key, as parsed by
`util.load_json_file` / `util.load_json_string`. -/
structure KeyMetadata where
  keytype : String
  scheme : String
  keyvalPublic : String
  keyvalPrivate : Option String := none
deriving DecidableEq, Repr

/-- An imported key object (the dict conforming to the per-type key
schema): keytype, scheme, content-derived keyid, the optional
keyid_hash_algorithms annotation, and the keyval payloads. -/
structure KeyObject where
  keytype : String
  scheme : String
  keyid : String
  keyidHashAlgorithms : Option (List String) := none
  keyvalPublic : String
  keyvalPrivate : Option String := none
deriving DecidableEq, Repr

/-- Modelled from the spec: the keyid is a content-derived identifier,
a pure function of the public key content and scheme.  The canonical
record text itself stands in for its hash digest. -/
def keyidOf (m : KeyMetadata) : String :=
  m.keytype ++ ":" ++ m.scheme ++ ":" ++ m.keyvalPublic

/-- The key-type strings of the spec data model: the enum rsa, ed25519,
ecdsa plus the legacy ecdsa spellings accepted on read only. -/
def recognizedKeytypes : List String :=
  ["rsa", "ed25519", "ecdsa", "ecdsa-sha2-nistp256", "ecdsa-sha2-nistp384"]

/-- Modelled from the spec: `securesystemslib.keys.format_metadata_to_key`
(`keys.py` is not part of the sources), the converter from the on-disk
record to the in-memory key object.  It validates the record against the
generic key schema (whose keytype field ranges over the recognized
key-type strings) and computes the content-derived keyid; it does not
check the keytype against any importer-specific expectation — the
importers in `interface.py` that want such a check perform it themselves
on the returned object. -/
def format_metadata_to_key (m : KeyMetadata) : Except Err KeyObject :=
  if recognizedKeytypes.contains m.keytype then
    .ok { keytype := m.keytype, scheme := m.scheme, keyid := keyidOf m,
          keyvalPublic := m.keyvalPublic, keyvalPrivate := m.keyvalPrivate }
  else
    .error (.formatError ("Unsupported keytype: " ++ m.keytype))

/-- `interface.import_ed25519_publickey_from_file`.  `loadJsonFile`
models `util.load_json_file` (the storage read plus JSON parse).  After
the generic conversion the importer checks that the loaded key really is
an ed25519 key. -/
def import_ed25519_publickey_from_file (filepath : String)
    (loadJsonFile : String → Except Err KeyMetadata) :
    List Event × Except Err KeyObject :=
  match loadJsonFile filepath with
  | .error e => ([.readFile filepath], .error e)
  | .ok md =>
    ([.readFile filepath],
     match format_metadata_to_key md with
     | .error e => .error e
     | .ok key =>
       if key.keytype != "ed25519" then
         .error (.formatError ("Invalid key type loaded: " ++ key.keytype))
       else .ok key)

/-- `interface.import_ecdsa_publickey_from_file`.  Identical loading
pipeline to the ed25519 public importer, but the source performs no
keytype check at all: whatever key object the generic conversion yields
is returned. -/
def import_ecdsa_publickey_from_file (filepath : String)
    (loadJsonFile : String → Except Err KeyMetadata) :
    List Event × Except Err KeyObject :=
  match loadJsonFile filepath with
  | .error e => ([.readFile filepath], .error e)
  | .ok md => ([.readFile filepath], format_metadata_to_key md)

/-- `interface.import_rsa_publickey_from_file`.  `readFile` models the
storage backend, `parsePem` models
`keys.import_rsakey_from_public_pem(pem, scheme)`.  A FormatError from
the parser is re-raised as `securesystemslib.exceptions.Error`. -/
def import_rsa_publickey_from_file (filepath : String) (scheme : String)
    (readFile : String → Except Err String)
    (parsePem : String → String → Except Err KeyObject) :
    List Event × Except Err KeyObject :=
  if !RSA_SCHEME_SCHEMA_check scheme then
    ([], .error (.formatError "scheme is improperly formatted"))
  else
    match readFile filepath with
    | .error e => ([.readFile filepath], .error e)
    | .ok pem =>
      ([.readFile filepath],
       match parsePem pem scheme with
       | .error (.formatError m) =>
         .error (.genericError
           ("Cannot import improperly formatted PEM file." ++ m))
       | r => r)

/-- `interface.import_rsa_privatekey_from_file`.  `parsePrivatePem`
models `keys.import_rsakey_from_private_pem(pem, scheme, password)`. -/
def import_rsa_privatekey_from_file (filepath : String)
    (password : Option String) (scheme : String) (prompt : Bool)
    (promptedPassword : String)
    (readFile : String → Except Err String)
    (parsePrivatePem : String → String → Option String → Except Err KeyObject) :
    List Event × Except Err KeyObject :=
  if !RSA_SCHEME_SCHEMA_check scheme then
    ([], .error (.formatError "scheme is improperly formatted"))
  else
    match get_key_file_decryption_password password prompt promptedPassword with
    | .error e => ([], .error e)
    | .ok pwOpt =>
      match readFile filepath with
      | .error e => ([.readFile filepath], .error e)
      | .ok pem => ([.readFile filepath], parsePrivatePem pem scheme pwOpt)

/-- `interface.import_ed25519_privatekey_from_file`.  `importJson`
models `keys.import_ed25519key_from_private_json(json_str, password)`
(which decrypts when a password is present and performs the keytype
vetting for this importer). -/
def import_ed25519_privatekey_from_file (filepath : String)
    (password : Option String) (prompt : Bool) (promptedPassword : String)
    (readFile : String → Except Err String)
    (importJson : String → Option String → Except Err KeyObject) :
    List Event × Except Err KeyObject :=
  match get_key_file_decryption_password password prompt promptedPassword with
  | .error e => ([], .error e)
  | .ok pwOpt =>
    match readFile filepath with
    | .error e => ([.readFile filepath], .error e)
    | .ok jsonStr => ([.readFile filepath], importJson jsonStr pwOpt)

/-- `interface.import_ecdsa_privatekey_from_file`.  `decrypt_key` models
`keys.decrypt_key(data, password)`, `load_json_string` models
`util.load_json_string(data)`, and `hashAlgorithms` is the configured
`settings.HASH_ALGORITHMS` list.  After parsing, the source checks the
stored keytype against ecdsa and its two legacy spellings, then
overwrites keyid_hash_algorithms with the configured list. -/
def import_ecdsa_privatekey_from_file (filepath : String)
    (password : Option String) (prompt : Bool) (promptedPassword : String)
    (readFile : String → Except Err String)
    (decrypt_key : String → String → Except Err KeyObject)
    (load_json_string : String → Except Err KeyObject)
    (hashAlgorithms : List String) :
    List Event × Except Err KeyObject :=
  match get_key_file_decryption_password password prompt promptedPassword with
  | .error e => ([], .error e)
  | .ok pwOpt =>
    match readFile filepath with
    | .error e => ([.readFile filepath], .error e)
    | .ok keyData =>
      ([.readFile filepath],
       match (match pwOpt with
              | some pw => decrypt_key keyData pw
              | none => load_json_string keyData) with
       | .error e => .error e
       | .ok keyObject =>
         if ["ecdsa", "ecdsa-sha2-nistp256",
             "ecdsa-sha2-nistp384"].contains keyObject.keytype then
           .ok { keyObject with keyidHashAlgorithms := some hashAlgorithms }
         else
           .error (.formatError
             ("Invalid key type loaded: " ++ keyObject.keytype)))

/-- Python dict assignment `d[k] = v`: replace in place when the key is
present, append otherwise. -/
def dictInsert (d : List (String × KeyObject)) (k : String)
    (v : KeyObject) : List (String × KeyObject) :=
  if d.any (fun p => p.1 == k) then
    d.map (fun p => if p.1 == k then (k, v) else p)
  else d ++ [(k, v)]

/-- The per-entry dispatch of `interface.import_publickeys_from_file`:
try ed25519, then rsa (with the default scheme), then ecdsa, and fail
on an unsupported type naming the allowed set. -/
def importPublickeyDispatch (loadJsonFile : String → Except Err KeyMetadata)
    (readFile : String → Except Err String)
    (parsePem : String → String → Except Err KeyObject)
    (keyType filepath : String) : List Event × Except Err KeyObject :=
  if keyType == KEY_TYPE_ED25519 then
    import_ed25519_publickey_from_file filepath loadJsonFile
  else if keyType == KEY_TYPE_RSA then
    import_rsa_publickey_from_file filepath "rsassa-pss-sha256"
      readFile parsePem
  else if keyType == KEY_TYPE_ECDSA then
    import_ecdsa_publickey_from_file filepath loadJsonFile
  else
    ([], .error (.formatError
      ("Unsupported key type " ++ keyType ++ ". Must be " ++
       KEY_TYPE_RSA ++ ", " ++ KEY_TYPE_ED25519 ++ " or " ++
       KEY_TYPE_ECDSA ++ ".")))

/-- The iteration of `interface.import_publickeys_from_file` over the
paired paths and types: dispatch each entry and aggregate the imported
keys by keyid into the dict. -/
def importPublickeysLoop (loadJsonFile : String → Except Err KeyMetadata)
    (readFile : String → Except Err String)
    (parsePem : String → String → Except Err KeyObject) :
    List (String × String) → List (String × KeyObject) →
    List Event × Except Err (List (String × KeyObject))
  | [], keyDict => ([], .ok keyDict)
  | (filepath, keyType) :: rest, keyDict =>
    match importPublickeyDispatch loadJsonFile readFile parsePem
        keyType filepath with
    | (tr, .error e) => (tr, .error e)
    | (tr, .ok key) =>
      let next := importPublickeysLoop loadJsonFile readFile parsePem rest
        (dictInsert keyDict key.keyid key)
      (tr ++ next.1, next.2)

/-- `interface.import_publickeys_from_file`: default missing key_types
to all-RSA, reject mismatched lengths before any import, then run the
dispatch loop over the paired lists starting from the empty dict. -/
def import_publickeys_from_file (filepaths : List String)
    (key_types : Option (List String))
    (loadJsonFile : String → Except Err KeyMetadata)
    (readFile : String → Except Err String)
    (parsePem : String → String → Except Err KeyObject) :
    List Event × Except Err (List (String × KeyObject)) :=
  let kts := match key_types with
    | none => filepaths.map (fun _ => KEY_TYPE_RSA)
    | some l => l
  if kts.length != filepaths.length then
    ([], .error (.formatError
      ("Pass equal amount of filepaths (got " ++
       toString filepaths.length ++ ") and key_types (got " ++
       toString kts.length ++ "), or no key_types at all to default to " ++
       KEY_TYPE_RSA ++ ".")))
  else
    importPublickeysLoop loadJsonFile readFile parsePem
      (filepaths.zip kts) []

/-- A filesystem: a map from paths to file contents. -/
def FS : Type := String → Option String

/-- Point update of a filesystem. -/
def fsUpdate (fs : FS) (p : String) (c : Option String) : FS :=
  fun q => if q = p then c else fs q

/-- Modelled from the spec: `securesystemslib.util.persist_temp_file`
(`util.py` is not part of the sources), the atomic-persistence
discipline every key-file write of the generate functions goes through.
The successive filesystem states of one persist call: initial state,
temporary file created (empty), bytes written to the temporary file,
and the atomic rename that publishes the content at the destination and
removes the temporary file. -/
def persistStates (fs : FS) (tmp dest : String) (content : String) :
    List FS :=
  [fs,
   fsUpdate fs tmp (some ""),
   fsUpdate fs tmp (some content),
   fsUpdate (fsUpdate fs tmp none) dest (some content)]

/-- C1: every generate and import operation that accepts both a
password and a prompt flag, called with a non-None password and
prompt=true, fails with the policy ValueError, and its effect trace is
empty: no key generation, no file read or write has taken place. -/
theorem C1_password_with_prompt_fails_before_io
    (pw promptedPassword cwd scheme fp : String) (bits : Nat)
    (filepath : Option String) (rsaKey : RsaKey) (key1 key2 : SslibKey)
    (encryptOk : Bool)
    (readFile : String → Except Err String)
    (parsePrivatePem : String → String → Option String → Except Err KeyObject)
    (importJson : String → Option String → Except Err KeyObject)
    (decrypt_key : String → String → Except Err KeyObject)
    (load_json_string : String → Except Err KeyObject)
    (hashAlgorithms : List String)
    (hbits : RSAKEYBITS_SCHEMA_check bits = true)
    (hscheme : RSA_SCHEME_SCHEMA_check scheme = true) :
    generate_and_write_rsa_keypair filepath bits (some pw) true
        promptedPassword rsaKey encryptOk cwd
      = ([], .error (.valueError
          "passing password and prompt=True is not allowed")) ∧
    generate_and_write_ed25519_keypair filepath (some pw) true
        promptedPassword key1 encryptOk cwd
      = ([], .error (.valueError
          "passing password and prompt=True is not allowed")) ∧
    generate_and_write_ecdsa_keypair filepath (some pw) true
        promptedPassword key2 encryptOk cwd
      = ([], .error (.valueError
          "passing password and prompt=True is not allowed")) ∧
    import_rsa_privatekey_from_file fp (some pw) scheme true
        promptedPassword readFile parsePrivatePem
      = ([], .error (.valueError
          "passing password and prompt=True is not allowed")) ∧
    import_ed25519_privatekey_from_file fp (some pw) true
        promptedPassword readFile importJson
      = ([], .error (.valueError
          "passing password and prompt=True is not allowed")) ∧
    import_ecdsa_privatekey_from_file fp (some pw) true
        promptedPassword readFile decrypt_key load_json_string
        hashAlgorithms
      = ([], .error (.valueError
          "passing password and prompt=True is not allowed")) := by
  refine ⟨?_, rfl, rfl, ?_, rfl, rfl⟩
  · simp [generate_and_write_rsa_keypair, hbits,
      get_key_file_encryption_password]
  · simp [import_rsa_privatekey_from_file, hscheme,
      get_key_file_decryption_password]

/-- Witness for C1 at concrete inputs. -/
theorem C1_password_with_prompt_fails_before_io_witness :
    RSAKEYBITS_SCHEMA_check 3072 = true ∧
    RSA_SCHEME_SCHEMA_check "rsassa-pss-sha256" = true ∧
    generate_and_write_rsa_keypair (some "k") 3072 (some "pw") true ""
        ⟨"id", "pubpem", "privpem"⟩ true "/w"
      = ([], .error (.valueError
          "passing password and prompt=True is not allowed")) :=
  ⟨by decide, by decide,
   (C1_password_with_prompt_fails_before_io "pw" "" "/w"
      "rsassa-pss-sha256" "k" 3072 (some "k")
      ⟨"id", "pubpem", "privpem"⟩
      ⟨"ed25519", "ed25519", "id", "p", "s"⟩
      ⟨"ecdsa", "ecdsa-sha2-nistp256", "id", "p", "s"⟩ true
      (fun _ => .ok "data")
      (fun _ _ _ => .error (.cryptoError "x"))
      (fun _ _ => .error (.cryptoError "x"))
      (fun _ _ => .error (.cryptoError "x"))
      (fun _ => .error (.cryptoError "x"))
      ["sha256", "sha512"] (by decide) (by decide)).1⟩

/-- C4: with prompt=true and no passed password, an empty interactive
entry makes both resolvers return None without raising: the encryption
resolver reads it as declining encryption, the decryption resolver as
the file being unencrypted. -/
theorem C4_empty_prompted_password_resolves_to_none :
    get_key_file_encryption_password none true "" = .ok none ∧
    get_key_file_decryption_password none true "" = .ok none :=
  ⟨rfl, rfl⟩

/-- C2 counterexample: an explicitly passed empty-string password is
NOT rejected by the decryption side.  The decryption resolver returns
it unchanged, and an import operation called with password="" proceeds
to read and decrypt the file instead of failing on the argument. -/
theorem C2_counterexample_import_accepts_empty_password :
    get_key_file_decryption_password (some "") false "" = .ok (some "") ∧
    import_ecdsa_privatekey_from_file "keyfile" (some "") false ""
        (fun _ => .ok "cipher")
        (fun _ _ => .ok ⟨"ecdsa", "sch", "id", none, "pub", some "priv"⟩)
        (fun _ => .error (.cryptoError "unused"))
        ["sha256", "sha512"]
      = ([.readFile "keyfile"],
         .ok ⟨"ecdsa", "sch", "id", some ["sha256", "sha512"], "pub",
              some "priv"⟩) :=
  ⟨rfl, rfl⟩

/-- C2 (amended): only the generation (encryption) side rejects an
explicitly passed empty-string password, with a ValueError; the
decryption side validates format only and passes the empty string
through to the decryption attempt.  On both sides, "no password" is
expressed by passing None. -/
theorem C2_amended_empty_password_rejected_only_on_encryption
    (promptedPassword cwd : String) (filepath : Option String)
    (bits : Nat) (rsaKey : RsaKey) (key1 key2 : SslibKey)
    (encryptOk : Bool)
    (hbits : RSAKEYBITS_SCHEMA_check bits = true) :
    get_key_file_encryption_password (some "") false promptedPassword
      = .error (.valueError
          "encryption password must be 1 or more characters long") ∧
    get_key_file_decryption_password (some "") false promptedPassword
      = .ok (some "") ∧
    get_key_file_encryption_password none false promptedPassword
      = .ok none ∧
    get_key_file_decryption_password none false promptedPassword
      = .ok none ∧
    generate_and_write_rsa_keypair filepath bits (some "") false
        promptedPassword rsaKey encryptOk cwd
      = ([], .error (.valueError
          "encryption password must be 1 or more characters long")) ∧
    generate_and_write_ed25519_keypair filepath (some "") false
        promptedPassword key1 encryptOk cwd
      = ([], .error (.valueError
          "encryption password must be 1 or more characters long")) ∧
    generate_and_write_ecdsa_keypair filepath (some "") false
        promptedPassword key2 encryptOk cwd
      = ([], .error (.valueError
          "encryption password must be 1 or more characters long")) := by
  refine ⟨rfl, rfl, rfl, rfl, ?_, rfl, rfl⟩
  simp [generate_and_write_rsa_keypair, hbits,
    get_key_file_encryption_password, PASSWORD_SCHEMA_check]

/-- Witness for C2 (amended) at concrete inputs. -/
theorem C2_amended_empty_password_rejected_only_on_encryption_witness :
    RSAKEYBITS_SCHEMA_check 3072 = true ∧
    generate_and_write_rsa_keypair (some "k") 3072 (some "") false ""
        ⟨"id", "pubpem", "privpem"⟩ true "/w"
      = ([], .error (.valueError
          "encryption password must be 1 or more characters long")) :=
  ⟨by decide,
   ((((C2_amended_empty_password_rejected_only_on_encryption "" "/w"
      (some "k") 3072 ⟨"id", "pubpem", "privpem"⟩
      ⟨"ed25519", "ed25519", "id", "p", "s"⟩
      ⟨"ecdsa", "ecdsa-sha2-nistp256", "id", "p", "s"⟩ true
      (by decide)).2).2).2).2.1⟩

/-- C3 counterexample: the failure on an explicit empty-string password
is a ValueError, not a securesystemslib FormatError as the claim
states. -/
theorem C3_counterexample_empty_password_error_is_not_format :
    generate_and_write_ed25519_keypair (some "f") (some "") false ""
        ⟨"ed25519", "ed25519", "id", "p", "s"⟩ true "/w"
      = ([], .error (.valueError
          "encryption password must be 1 or more characters long")) ∧
    Err.isFormat (.valueError
        "encryption password must be 1 or more characters long")
      = false :=
  ⟨rfl, rfl⟩

/-- C3 (amended): for every generate function, an explicit empty-string
password with prompt=false fails with the policy ValueError before
anything is generated or written (empty trace), while password=None
succeeds and writes the private key file unencrypted: the raw private
PEM for RSA, the plain JSON serialization of the key for
Ed25519/ECDSA. -/
theorem C3_amended_empty_password_fails_none_writes_unencrypted
    (promptedPassword cwd : String) (filepath : Option String)
    (bits : Nat) (rsaKey : RsaKey) (key1 key2 : SslibKey)
    (encryptOk : Bool)
    (hbits : RSAKEYBITS_SCHEMA_check bits = true) :
    generate_and_write_rsa_keypair filepath bits (some "") false
        promptedPassword rsaKey encryptOk cwd
      = ([], .error (.valueError
          "encryption password must be 1 or more characters long")) ∧
    generate_and_write_ed25519_keypair filepath (some "") false
        promptedPassword key1 encryptOk cwd
      = ([], .error (.valueError
          "encryption password must be 1 or more characters long")) ∧
    generate_and_write_ecdsa_keypair filepath (some "") false
        promptedPassword key2 encryptOk cwd
      = ([], .error (.valueError
          "encryption password must be 1 or more characters long")) ∧
    generate_and_write_rsa_keypair filepath bits none false
        promptedPassword rsaKey encryptOk cwd
      = ([.generateKey "rsa",
          .ensureParentDir (resolveFilepath cwd rsaKey.keyid filepath),
          .writeFile (resolveFilepath cwd rsaKey.keyid filepath ++ ".pub")
            (.raw rsaKey.publicPem),
          .writeFile (resolveFilepath cwd rsaKey.keyid filepath)
            (.raw rsaKey.privatePem)],
         .ok (resolveFilepath cwd rsaKey.keyid filepath)) ∧
    generate_and_write_ed25519_keypair filepath none false
        promptedPassword key1 encryptOk cwd
      = ([.generateKey "ed25519",
          .ensureParentDir (resolveFilepath cwd key1.keyid filepath),
          .writeFile (resolveFilepath cwd key1.keyid filepath ++ ".pub")
            (.publicMetadataJson key1.keytype key1.scheme key1.keyvalPublic),
          .writeFile (resolveFilepath cwd key1.keyid filepath)
            (.privateKeyJson key1)],
         .ok (resolveFilepath cwd key1.keyid filepath)) ∧
    generate_and_write_ecdsa_keypair filepath none false
        promptedPassword key2 encryptOk cwd
      = ([.generateKey "ecdsa",
          .ensureParentDir (resolveFilepath cwd key2.keyid filepath),
          .writeFile (resolveFilepath cwd key2.keyid filepath ++ ".pub")
            (.publicMetadataJson key2.keytype key2.scheme key2.keyvalPublic),
          .writeFile (resolveFilepath cwd key2.keyid filepath)
            (.privateKeyJson key2)],
         .ok (resolveFilepath cwd key2.keyid filepath)) := by
  refine ⟨?_, rfl, rfl, ?_, rfl, rfl⟩
  · simp [generate_and_write_rsa_keypair, hbits,
      get_key_file_encryption_password, PASSWORD_SCHEMA_check]
  · simp [generate_and_write_rsa_keypair, hbits,
      get_key_file_encryption_password, PASSWORD_SCHEMA_check]

/-- Witness for C3 (amended) at concrete inputs. -/
theorem C3_amended_empty_password_fails_none_writes_unencrypted_witness :
    RSAKEYBITS_SCHEMA_check 3072 = true ∧
    generate_and_write_rsa_keypair (some "k") 3072 none false ""
        ⟨"id", "pubpem", "privpem"⟩ true "/w"
      = ([.generateKey "rsa", .ensureParentDir "k",
          .writeFile "k.pub" (.raw "pubpem"),
          .writeFile "k" (.raw "privpem")], .ok "k") :=
  ⟨by decide,
   by
    have h :=
      (((C3_amended_empty_password_fails_none_writes_unencrypted "" "/w"
        (some "k") 3072 ⟨"id", "pubpem", "privpem"⟩
        ⟨"ed25519", "ed25519", "id", "p", "s"⟩
        ⟨"ecdsa", "ecdsa-sha2-nistp256", "id", "p", "s"⟩ true
        (by decide)).2).2).2.1
    simpa [resolveFilepath] using h⟩

/-- C5: evaluating the importers at the failing input.  The ECDSA
public-key importer performs no keytype check: a file whose stored
metadata carries keytype ed25519 is imported without error and returned
with that foreign keytype, although the importer's documentation
promises a FormatError on an unexpected key type.  The sibling ed25519
public importer does perform the documented check on the same kind of
input. -/
theorem C5_ecdsa_public_importer_accepts_foreign_keytype :
    import_ecdsa_publickey_from_file "k.pub"
        (fun _ => .ok ⟨"ed25519", "ed25519", "pubX", none⟩)
      = ([.readFile "k.pub"],
         .ok ⟨"ed25519", "ed25519", "ed25519:ed25519:pubX", none,
              "pubX", none⟩) ∧
    import_ed25519_publickey_from_file "k.pub"
        (fun _ => .ok ⟨"ecdsa", "ecdsa-sha2-nistp256", "pubX", none⟩)
      = ([.readFile "k.pub"],
         .error (.formatError "Invalid key type loaded: ecdsa")) :=
  ⟨rfl, rfl⟩

/-- C6: the ECDSA private-key importer accepts exactly the stored
keytypes ecdsa, ecdsa-sha2-nistp256 and ecdsa-sha2-nistp384, always
setting keyid_hash_algorithms on the returned object to the configured
hash-algorithm list; any other stored keytype fails with a format error
naming the unexpected value. -/
theorem C6_ecdsa_private_import_legacy_keytypes_and_hash_algorithms
    (filepath fileData : String) (ko : KeyObject)
    (hashAlgorithms : List String)
    (decrypt_key : String → String → Except Err KeyObject) :
    (ko.keytype ∈ (["ecdsa", "ecdsa-sha2-nistp256",
        "ecdsa-sha2-nistp384"] : List String) →
      import_ecdsa_privatekey_from_file filepath none false ""
          (fun _ => .ok fileData) decrypt_key (fun _ => .ok ko)
          hashAlgorithms
        = ([.readFile filepath],
           .ok { ko with keyidHashAlgorithms := some hashAlgorithms })) ∧
    (ko.keytype ∉ (["ecdsa", "ecdsa-sha2-nistp256",
        "ecdsa-sha2-nistp384"] : List String) →
      import_ecdsa_privatekey_from_file filepath none false ""
          (fun _ => .ok fileData) decrypt_key (fun _ => .ok ko)
          hashAlgorithms
        = ([.readFile filepath],
           .error (.formatError
             ("Invalid key type loaded: " ++ ko.keytype)))) := by
  constructor
  · intro h
    simp only [List.mem_cons, List.mem_singleton, List.not_mem_nil,
      or_false] at h
    rcases h with h | h | h <;>
      simp [import_ecdsa_privatekey_from_file,
        get_key_file_decryption_password, h]
  · intro h
    simp only [List.mem_cons, List.mem_singleton, List.not_mem_nil,
      or_false] at h
    push_neg at h
    obtain ⟨h1, h2, h3⟩ := h
    simp [import_ecdsa_privatekey_from_file,
      get_key_file_decryption_password, h1, h2, h3]

/-- Witness for C6: a legacy-typed key is imported with the configured
hash algorithms, a dsa-typed key is rejected. -/
theorem C6_ecdsa_private_import_legacy_keytypes_witness :
    import_ecdsa_privatekey_from_file "kf" none false ""
        (fun _ => .ok "data") (fun _ _ => .error (.cryptoError "x"))
        (fun _ => .ok ⟨"ecdsa-sha2-nistp256", "sch", "id", none, "pub",
                       some "priv"⟩)
        ["sha256", "sha512"]
      = ([.readFile "kf"],
         .ok ⟨"ecdsa-sha2-nistp256", "sch", "id",
              some ["sha256", "sha512"], "pub", some "priv"⟩) ∧
    import_ecdsa_privatekey_from_file "kf" none false ""
        (fun _ => .ok "data") (fun _ _ => .error (.cryptoError "x"))
        (fun _ => .ok ⟨"dsa", "sch", "id", none, "pub", some "priv"⟩)
        ["sha256", "sha512"]
      = ([.readFile "kf"],
         .error (.formatError "Invalid key type loaded: dsa")) :=
  ⟨(C6_ecdsa_private_import_legacy_keytypes_and_hash_algorithms "kf"
      "data" ⟨"ecdsa-sha2-nistp256", "sch", "id", none, "pub", some "priv"⟩
      ["sha256", "sha512"] (fun _ _ => .error (.cryptoError "x"))).1
      (by decide),
   (C6_ecdsa_private_import_legacy_keytypes_and_hash_algorithms "kf"
      "data" ⟨"dsa", "sch", "id", none, "pub", some "priv"⟩
      ["sha256", "sha512"] (fun _ _ => .error (.cryptoError "x"))).2
      (by decide)⟩

/-- C7: the batch importer defaults a missing key_types to all-RSA,
rejects mismatched list lengths with a format error before dispatching
any import, and fails with a format error naming the allowed set when
the dispatch reaches an entry with an unrecognized key type. -/
theorem C7_import_publickeys_defaults_lengths_and_types
    (loadJsonFile : String → Except Err KeyMetadata)
    (readFile : String → Except Err String)
    (parsePem : String → String → Except Err KeyObject)
    (filepaths kts : List String) (fp kt : String)
    (rest : List (String × String))
    (keyDict : List (String × KeyObject)) :
    import_publickeys_from_file filepaths none loadJsonFile readFile
        parsePem
      = import_publickeys_from_file filepaths
          (some (filepaths.map fun _ => KEY_TYPE_RSA))
          loadJsonFile readFile parsePem ∧
    (kts.length ≠ filepaths.length →
      import_publickeys_from_file filepaths (some kts) loadJsonFile
          readFile parsePem
        = ([], .error (.formatError
            ("Pass equal amount of filepaths (got " ++
             toString filepaths.length ++ ") and key_types (got " ++
             toString kts.length ++
             "), or no key_types at all to default to " ++
             KEY_TYPE_RSA ++ ".")))) ∧
    (kt ∉ [KEY_TYPE_RSA, KEY_TYPE_ED25519, KEY_TYPE_ECDSA] →
      importPublickeysLoop loadJsonFile readFile parsePem
          ((fp, kt) :: rest) keyDict
        = ([], .error (.formatError
            ("Unsupported key type " ++ kt ++ ". Must be " ++
             KEY_TYPE_RSA ++ ", " ++ KEY_TYPE_ED25519 ++ " or " ++
             KEY_TYPE_ECDSA ++ ".")))) := by
  refine ⟨?_, ?_, ?_⟩
  · simp [import_publickeys_from_file]
  · intro h
    simp [import_publickeys_from_file, h]
  · intro h
    simp only [List.mem_cons, List.mem_singleton, List.not_mem_nil,
      or_false] at h
    push_neg at h
    obtain ⟨h1, h2, h3⟩ := h
    simp [importPublickeysLoop, importPublickeyDispatch, h1, h2, h3]

/-- Witness for C7 at concrete inputs: one key type for two paths, and
an unsupported dsa entry. -/
theorem C7_import_publickeys_defaults_lengths_and_types_witness :
    (["ed25519"] : List String).length ≠
      (["a.pub", "b.pub"] : List String).length ∧
    import_publickeys_from_file ["a.pub", "b.pub"] (some ["ed25519"])
        (fun _ => .error (.storageError "x"))
        (fun _ => .error (.storageError "x"))
        (fun _ _ => .error (.storageError "x"))
      = ([], .error (.formatError
          ("Pass equal amount of filepaths (got " ++
           toString (["a.pub", "b.pub"] : List String).length ++
           ") and key_types (got " ++
           toString (["ed25519"] : List String).length ++
           "), or no key_types at all to default to " ++
           KEY_TYPE_RSA ++ "."))) ∧
    ("dsa" : String) ∉ [KEY_TYPE_RSA, KEY_TYPE_ED25519, KEY_TYPE_ECDSA] ∧
    importPublickeysLoop (fun _ => .error (.storageError "x"))
        (fun _ => .error (.storageError "x"))
        (fun _ _ => .error (.storageError "x")) [("x.pub", "dsa")] []
      = ([], .error (.formatError
          ("Unsupported key type " ++ "dsa" ++ ". Must be " ++
           KEY_TYPE_RSA ++ ", " ++ KEY_TYPE_ED25519 ++ " or " ++
           KEY_TYPE_ECDSA ++ "."))) :=
  ⟨by decide,
   (C7_import_publickeys_defaults_lengths_and_types
      (fun _ => .error (.storageError "x"))
      (fun _ => .error (.storageError "x"))
      (fun _ _ => .error (.storageError "x"))
      ["a.pub", "b.pub"] ["ed25519"] "x.pub" "dsa" [] []).2.1
      (by decide),
   by decide,
   (C7_import_publickeys_defaults_lengths_and_types
      (fun _ => .error (.storageError "x"))
      (fun _ => .error (.storageError "x"))
      (fun _ _ => .error (.storageError "x"))
      ["a.pub", "b.pub"] ["ed25519"] "x.pub" "dsa" [] []).2.2
      (by decide)⟩

/-- Replacing the value stored at an existing dict key leaves the list
of keys unchanged. -/
theorem dictReplace_map_fst (d : List (String × KeyObject)) (k : String)
    (v : KeyObject) :
    (d.map (fun p => if p.1 == k then (k, v) else p)).map Prod.fst
      = d.map Prod.fst := by
  induction d with
  | nil => rfl
  | cons p tl ih =>
    simp only [List.map_cons, ih, List.cons.injEq, and_true]
    by_cases h : p.1 = k
    · simp [h]
    · simp [h]

/-- Python dict assignment keeps the key list duplicate-free. -/
theorem dictInsert_fst_nodup (d : List (String × KeyObject)) (k : String)
    (v : KeyObject) (h : (d.map Prod.fst).Nodup) :
    ((dictInsert d k v).map Prod.fst).Nodup := by
  unfold dictInsert
  by_cases ha : d.any (fun p => p.1 == k) = true
  · rw [if_pos ha, dictReplace_map_fst]
    exact h
  · rw [if_neg ha, List.map_append]
    refine List.Nodup.append h (List.nodup_singleton k) ?_
    intro a haa hak
    rcases List.mem_map.mp haa with ⟨q, hq, rfl⟩
    simp only [List.map_cons, List.map_nil, List.mem_singleton] at hak
    exact ha (List.any_eq_true.mpr ⟨q, hq, by simp [hak]⟩)

/-- Python dict assignment with a key equal to the inserted value's
keyid preserves the keyid-consistency of all entries. -/
theorem dictInsert_keyid_consistent (d : List (String × KeyObject))
    (k : String) (v : KeyObject) (hd : ∀ p ∈ d, p.1 = p.2.keyid)
    (hk : k = v.keyid) : ∀ p ∈ dictInsert d k v, p.1 = p.2.keyid := by
  unfold dictInsert
  by_cases ha : d.any (fun p => p.1 == k) = true
  · rw [if_pos ha]
    intro p hp
    rcases List.mem_map.mp hp with ⟨q, hq, rfl⟩
    by_cases h : q.1 = k
    · simp [h, hk]
    · simp only [h, beq_iff_eq, if_neg h]
      exact hd q hq
  · rw [if_neg ha]
    intro p hp
    rcases List.mem_append.mp hp with h | h
    · exact hd p h
    · rw [List.mem_singleton] at h
      subst h
      exact hk

/-- When the batch-import loop succeeds, its result dict has
duplicate-free keys and every entry is stored under its own keyid. -/
theorem importPublickeysLoop_ok_invariant
    (loadJsonFile : String → Except Err KeyMetadata)
    (readFile : String → Except Err String)
    (parsePem : String → String → Except Err KeyObject) :
    ∀ (files : List (String × String)) (acc d : List (String × KeyObject)),
      (acc.map Prod.fst).Nodup → (∀ p ∈ acc, p.1 = p.2.keyid) →
      (importPublickeysLoop loadJsonFile readFile parsePem files acc).2
        = .ok d →
      (d.map Prod.fst).Nodup ∧ ∀ p ∈ d, p.1 = p.2.keyid := by
  intro files
  induction files with
  | nil =>
    intro acc d h1 h2 h
    simp only [importPublickeysLoop, Except.ok.injEq] at h
    subst h
    exact ⟨h1, h2⟩
  | cons entry rest ih =>
    intro acc d h1 h2 h
    obtain ⟨fp, kt⟩ := entry
    simp only [importPublickeysLoop] at h
    rcases hstep : importPublickeyDispatch loadJsonFile readFile parsePem
        kt fp with ⟨tr, r⟩
    rw [hstep] at h
    cases r with
    | error e => simp at h
    | ok key =>
      simp only at h
      exact ih (dictInsert acc key.keyid key) d
        (dictInsert_fst_nodup acc key.keyid key h1)
        (dictInsert_keyid_consistent acc key.keyid key h2 rfl) h

/-- C8: the batch importer aggregates by keyid — any successful result
is a map with duplicate-free keys in which each key object is stored
under its own keyid — and when two input files yield the same keyid the
later one silently overwrites the earlier (demonstrated with two
ed25519 public-key files sharing public content, hence keyid, where the
result holds only the second file's key). -/
theorem C8_keyid_aggregation_last_write_wins
    (loadJsonFile : String → Except Err KeyMetadata)
    (readFile : String → Except Err String)
    (parsePem : String → String → Except Err KeyObject)
    (files : List (String × String)) (d : List (String × KeyObject))
    (h : (importPublickeysLoop loadJsonFile readFile parsePem files []).2
        = .ok d) :
    ((d.map Prod.fst).Nodup ∧ ∀ p ∈ d, p.1 = p.2.keyid) ∧
    import_publickeys_from_file ["a.pub", "b.pub"]
        (some ["ed25519", "ed25519"])
        (fun p => if p == "a.pub" then
            .ok ⟨"ed25519", "ed25519", "pubX", none⟩
          else
            .ok ⟨"ed25519", "ed25519", "pubX", some "privB"⟩)
        (fun _ => .error (.storageError "x"))
        (fun _ _ => .error (.storageError "x"))
      = ([.readFile "a.pub", .readFile "b.pub"],
         .ok [("ed25519:ed25519:pubX",
               ⟨"ed25519", "ed25519", "ed25519:ed25519:pubX", none,
                "pubX", some "privB"⟩)]) :=
  ⟨importPublickeysLoop_ok_invariant loadJsonFile readFile parsePem
     files [] d (by simp) (by simp) h,
   rfl⟩

/-- Witness for C8: the empty batch succeeds with the empty dict, whose
keys are trivially duplicate-free and keyid-consistent. -/
theorem C8_keyid_aggregation_last_write_wins_witness :
    (importPublickeysLoop (fun _ => .error (.storageError "x"))
        (fun _ => .error (.storageError "x"))
        (fun _ _ => .error (.storageError "x")) [] []).2
      = .ok ([] : List (String × KeyObject)) ∧
    ((([] : List (String × KeyObject)).map Prod.fst).Nodup ∧
      ∀ p ∈ ([] : List (String × KeyObject)), p.1 = p.2.keyid) :=
  ⟨rfl,
   (C8_keyid_aggregation_last_write_wins
      (fun _ => .error (.storageError "x"))
      (fun _ => .error (.storageError "x"))
      (fun _ _ => .error (.storageError "x")) [] [] rfl).1⟩

/-- C9: the atomic-persistence discipline used for every key-file write
of the generate functions.  Every filesystem state before the final
rename leaves the destination with its prior content; every state of
the persist call shows the destination either with its prior content or
with the complete new content, never a partial write; and the final
state publishes the full content at the destination. -/
theorem C9_persist_atomic_no_truncation (fs : FS) (tmp dest content : String)
    (h : tmp ≠ dest) :
    (∀ s ∈ (persistStates fs tmp dest content).dropLast,
        s dest = fs dest) ∧
    (∀ s ∈ persistStates fs tmp dest content,
        s dest = fs dest ∨ s dest = some content) ∧
    fsUpdate (fsUpdate fs tmp none) dest (some content) dest
      = some content ∧
    (persistStates fs tmp dest content).getLast?
      = some (fsUpdate (fsUpdate fs tmp none) dest (some content)) := by
  have hd : dest ≠ tmp := fun hh => h hh.symm
  refine ⟨?_, ?_, ?_, rfl⟩
  · intro s hs
    simp only [persistStates, List.dropLast, List.mem_cons,
      List.mem_singleton, List.not_mem_nil, or_false] at hs
    rcases hs with rfl | rfl | rfl
    · rfl
    · simp [fsUpdate, hd]
    · simp [fsUpdate, hd]
  · intro s hs
    simp only [persistStates, List.mem_cons, List.mem_singleton,
      List.not_mem_nil, or_false] at hs
    rcases hs with rfl | rfl | rfl | rfl
    · exact Or.inl rfl
    · exact Or.inl (by simp [fsUpdate, hd])
    · exact Or.inl (by simp [fsUpdate, hd])
    · exact Or.inr (by simp [fsUpdate])
  · simp [fsUpdate]

/-- Witness for C9 on a concrete empty filesystem. -/
theorem C9_persist_atomic_no_truncation_witness :
    ("tmpfile" : String) ≠ "dest" ∧
    ∀ s ∈ (persistStates (fun _ => none) "tmpfile" "dest"
        "KEYMATERIAL").dropLast,
      s "dest" = (fun _ => (none : Option String)) "dest" :=
  ⟨by decide,
   (C9_persist_atomic_no_truncation (fun _ => none) "tmpfile" "dest"
      "KEYMATERIAL" (by decide)).1⟩

/-- Whether an event is a key-file write. -/
def Event.isWrite : Event → Bool
  | .writeFile _ _ => true
  | _ => false

/-- C10 counterexample: in the RSA generate function the private key is
encrypted BEFORE the public key file is written, so when encryption
fails no file at all has been published — the trace holds only the key
generation and the failed encryption attempt, and contains no write
event, contradicting the claim that the public key file is persisted
before the private key is encrypted. -/
theorem C10_counterexample_rsa_encrypts_before_public_write :
    generate_and_write_rsa_keypair (some "k") 3072 (some "pw") false ""
        ⟨"id", "pubpem", "privpem"⟩ false "/w"
      = ([.generateKey "rsa", .encryptPrivate],
         .error (.cryptoError "cannot encrypt private PEM")) ∧
    ([Event.generateKey "rsa", Event.encryptPrivate].any
        Event.isWrite) = false :=
  ⟨rfl, by decide⟩

/-- C10 (amended): in every generate function the public key file is
written before the private key file, so a failure of the private-key
write leaves the public key file already published; for Ed25519 and
ECDSA the public write also precedes the private-key encryption, so an
encryption failure likewise leaves the public file published; for RSA,
however, encryption precedes the public write, and an encryption
failure aborts the call before any file is written. -/
theorem C10_amended_public_write_precedes_private_write
    (filepath : Option String) (promptedPassword cwd pw : String)
    (bits : Nat) (rsaKey : RsaKey) (key1 key2 : SslibKey)
    (hbits : RSAKEYBITS_SCHEMA_check bits = true)
    (hpw : (pw.length == 0) = false) :
    generate_and_write_rsa_keypair filepath bits (some pw) false
        promptedPassword rsaKey true cwd
      = ([.generateKey "rsa", .encryptPrivate,
          .ensureParentDir (resolveFilepath cwd rsaKey.keyid filepath),
          .writeFile (resolveFilepath cwd rsaKey.keyid filepath ++ ".pub")
            (.raw rsaKey.publicPem),
          .writeFile (resolveFilepath cwd rsaKey.keyid filepath)
            (.encryptedPem rsaKey.privatePem pw)],
         .ok (resolveFilepath cwd rsaKey.keyid filepath)) ∧
    generate_and_write_rsa_keypair filepath bits (some pw) false
        promptedPassword rsaKey false cwd
      = ([.generateKey "rsa", .encryptPrivate],
         .error (.cryptoError "cannot encrypt private PEM")) ∧
    generate_and_write_ed25519_keypair filepath (some pw) false
        promptedPassword key1 true cwd
      = ([.generateKey "ed25519",
          .ensureParentDir (resolveFilepath cwd key1.keyid filepath),
          .writeFile (resolveFilepath cwd key1.keyid filepath ++ ".pub")
            (.publicMetadataJson key1.keytype key1.scheme
              key1.keyvalPublic),
          .encryptPrivate,
          .writeFile (resolveFilepath cwd key1.keyid filepath)
            (.encryptedKey key1 pw)],
         .ok (resolveFilepath cwd key1.keyid filepath)) ∧
    generate_and_write_ed25519_keypair filepath (some pw) false
        promptedPassword key1 false cwd
      = ([.generateKey "ed25519",
          .ensureParentDir (resolveFilepath cwd key1.keyid filepath),
          .writeFile (resolveFilepath cwd key1.keyid filepath ++ ".pub")
            (.publicMetadataJson key1.keytype key1.scheme
              key1.keyvalPublic),
          .encryptPrivate],
         .error (.cryptoError "cannot encrypt key")) ∧
    generate_and_write_ecdsa_keypair filepath (some pw) false
        promptedPassword key2 true cwd
      = ([.generateKey "ecdsa",
          .ensureParentDir (resolveFilepath cwd key2.keyid filepath),
          .writeFile (resolveFilepath cwd key2.keyid filepath ++ ".pub")
            (.publicMetadataJson key2.keytype key2.scheme
              key2.keyvalPublic),
          .encryptPrivate,
          .writeFile (resolveFilepath cwd key2.keyid filepath)
            (.encryptedKey key2 pw)],
         .ok (resolveFilepath cwd key2.keyid filepath)) ∧
    generate_and_write_ecdsa_keypair filepath (some pw) false
        promptedPassword key2 false cwd
      = ([.generateKey "ecdsa",
          .ensureParentDir (resolveFilepath cwd key2.keyid filepath),
          .writeFile (resolveFilepath cwd key2.keyid filepath ++ ".pub")
            (.publicMetadataJson key2.keytype key2.scheme
              key2.keyvalPublic),
          .encryptPrivate],
         .error (.cryptoError "cannot encrypt key")) := by
  refine ⟨?_, ?_, ?_, ?_, ?_, ?_⟩ <;>
    simp [generate_and_write_rsa_keypair,
      generate_and_write_ed25519_keypair,
      generate_and_write_ecdsa_keypair, hbits,
      get_key_file_encryption_password, PASSWORD_SCHEMA_check, hpw]

/-- Witness for C10 (amended) at concrete inputs. -/
theorem C10_amended_public_write_precedes_private_write_witness :
    RSAKEYBITS_SCHEMA_check 3072 = true ∧
    (("pw".length == 0) = false) ∧
    generate_and_write_ed25519_keypair (some "f") (some "pw") false ""
        ⟨"ed25519", "ed25519", "id", "p", "s"⟩ false "/w"
      = ([.generateKey "ed25519", .ensureParentDir "f",
          .writeFile "f.pub" (.publicMetadataJson "ed25519" "ed25519" "p"),
          .encryptPrivate],
         .error (.cryptoError "cannot encrypt key")) :=
  ⟨by decide, by decide,
   by
    have hth :=
      (((C10_amended_public_write_precedes_private_write (some "f") ""
        "/w" "pw" 3072 ⟨"id", "pubpem", "privpem"⟩
        ⟨"ed25519", "ed25519", "id", "p", "s"⟩
        ⟨"ecdsa", "ecdsa-sha2-nistp256", "id", "p", "s"⟩
        (by decide) (by decide)).2).2).2.1
    simpa [resolveFilepath] using hth⟩

end Sslib
